import Mathlib

/-!
Verification of the DirectLine streaming client (src/directLineStreaming.ts).

The development shallowly embeds the client code: pure fragments become Lean
functions, the stateful connection controller becomes an explicit step
function on a state record, and JavaScript exceptions are modelled with
Except.  Machine integers do not occur; all counters are Nat or Int.
-/

namespace DLS

/-- The MAX_RETRY_COUNT constant of the source (line 18). -/
def MAX_RETRY_COUNT : Nat := 3

/-- Modelled from the spec: the ConnectionStatus enumeration values used by the
streaming client.  The enum itself is declared in directLine.ts, which is not
among the provided sources; the spec lists the four values the streaming
client uses: Uninitialized, Connecting, Online, Ended. -/
inductive ConnectionStatus where
  | Uninitialized
  | Connecting
  | Online
  | Ended
deriving DecidableEq, Repr

/-- An attachment object as built by the inbound handler: contentType together
with a contentUrl. -/
structure Attachment where
  contentType : String
  contentUrl : String
deriving DecidableEq, Repr

/-- An inbound activity as parsed from the first stream of a server request.
The fields other than attachments are opaque to the client and collapsed into
the core string.  A JSON object without an attachments field parses to
attachments = none (undefined in JavaScript); an explicit array parses to
some list. -/
structure InActivity where
  core : String
  attachments : Option (List Attachment)
deriving DecidableEq, Repr

/-- The parsed activity set carried by the first stream of an inbound
request. -/
structure ActivitySet where
  activities : List InActivity
deriving DecidableEq, Repr

/-- One additional content stream of an inbound request: its contentType and
the result of readAsString (the base64 text of the payload). -/
structure ContentStream where
  contentType : String
  content : String
deriving DecidableEq, Repr

/-- JavaScript runtime errors that the embedded fragments can throw. -/
inductive JsError where
  | spreadUndefined
  | undefinedIndex
deriving DecidableEq, Repr

/-- What the handler pushed on the activity sink while processing one
request. -/
inductive SinkEvent where
  | errored
  | queued (a : InActivity)
  | next (a : InActivity)
deriving DecidableEq, Repr

/-- Outcome of StreamHandler.processRequest: the sink events it produced and
the HTTP status code of the streaming response. -/
structure ProcessResult where
  sink : List SinkEvent
  statusCode : Nat
deriving DecidableEq, Repr

/-- Source line 67: the data URI built for one extra stream. -/
def materializeAttachment (s : ContentStream) : Attachment :=
  { contentType := s.contentType
    contentUrl := "data:text/plain;base64," ++ s.content }

/-- StreamHandler.processRequest (source lines 47 to 81).  The first stream
has already been parsed into the activitySet argument; streams holds the
remaining streams in order.  shouldQueue is the value of the queueActivities
callback at delivery time.  Line 53: an activity count other than one signals
an error on the sink and answers 500.  Lines 61 to 72: when extra streams are
present the code evaluates the spread of activity.attachments; in JavaScript
spreading undefined throws a TypeError, modelled as Except.error
spreadUndefined.  Otherwise each extra stream is appended, in order, as a
data URI attachment.  Lines 74 to 80: the activity is queued or published and
the response is 200. -/
def processRequest (shouldQueue : Bool) (activitySet : ActivitySet)
    (streams : List ContentStream) : Except JsError ProcessResult :=
  match activitySet.activities with
  | [activity] =>
    if streams.isEmpty then
      .ok { sink := [if shouldQueue then .queued activity else .next activity]
            statusCode := 200 }
    else
      match activity.attachments with
      | none => .error .spreadUndefined
      | some atts =>
        let newActivity : InActivity :=
          { activity with
            attachments := some (atts ++ streams.map materializeAttachment) }
        .ok { sink := [if shouldQueue then .queued newActivity else .next newActivity]
              statusCode := 200 }
  | _ => .ok { sink := [.errored], statusCode := 500 }

/-- What refreshToken did to the stored token. -/
inductive TokenAction where
  | keep
  | set (t : String)
  | clearNull
deriving DecidableEq, Repr

/-- Outcome of one refreshToken invocation: the arguments of a recursive call
scheduled through setTimeout after refreshTokenInterval, the arguments of an
immediate (same tick) recursive call, the token update, and whether the
transport was disconnected. -/
structure RefreshResult where
  scheduled : Option (Bool × Nat)
  immediateRetry : Option (Bool × Nat)
  tokenAction : TokenAction
  disconnects : Bool
deriving DecidableEq, Repr

/-- DirectLineStreaming.refreshToken (source lines 157 to 197).  The firstCall
branch (lines 158 to 161) only schedules refreshToken(false, 0) and returns.
Line 163: when the status is Ended the method returns without doing anything.
Otherwise the method waits until Online and issues the POST; the ajax argument
is the outcome of that request (ok token, or error status).  Success (lines
178 to 181) stores the new token and schedules refreshToken(false,
MAX_RETRY_COUNT).  Error status 403 or 404 (lines 183 to 185) disconnects the
transport and schedules nothing.  Any other error retries immediately with
retryCount - 1 while retryCount > 0 (lines 187 to 189), and otherwise clears
the token to null and disconnects (lines 190 to 194). -/
def refreshToken (firstCall : Bool) (retryCount : Nat)
    (status : ConnectionStatus) (ajax : Except Nat String) : RefreshResult :=
  if firstCall then
    { scheduled := some (false, 0), immediateRetry := none
      tokenAction := .keep, disconnects := false }
  else if status = .Ended then
    { scheduled := none, immediateRetry := none
      tokenAction := .keep, disconnects := false }
  else
    match ajax with
    | .ok tok =>
      { scheduled := some (false, MAX_RETRY_COUNT), immediateRetry := none
        tokenAction := .set tok, disconnects := false }
    | .error st =>
      if st = 403 ∨ st = 404 then
        { scheduled := none, immediateRetry := none
          tokenAction := .keep, disconnects := true }
      else if 0 < retryCount then
        { scheduled := none, immediateRetry := some (false, retryCount - 1)
          tokenAction := .keep, disconnects := false }
      else
        { scheduled := none, immediateRetry := none
          tokenAction := .clearNull, disconnects := true }

/-- Activities are opaque to the controller; a natural number stands for one
activity payload. -/
abbrev Act := Nat

/-- Entry points of the connection controller, as events of a sequential
transition system.  Each constructor names the code block it models:
connectStart is the head of connectAsync (line 317, queueActivities := true);
onlinePub is the status publication on handshake success (line 326);
flushDone is the block after waitUntilOnline (lines 331 to 334: flush the
queue, stop queueing, reset the retry counter); connectFail is the catch
block of connectAsync (line 337, disconnect the transport); recv is the
queue-or-publish tail of StreamHandler.processRequest (lines 74 to 78);
discon is disconnectionHandler (lines 271 to 292); endCall is end (lines 135
to 138). -/
inductive Ev where
  | connectStart
  | onlinePub
  | flushDone
  | connectFail
  | recv (a : Act)
  | discon
  | endCall
deriving DecidableEq, Repr

/-- Externally observable effects of the controller, in emission order:
status values published on connectionStatus$, activities and errors pushed on
the activity sink, reconnect handshakes scheduled by the disconnection
handler, and calls to streamConnection.disconnect. -/
inductive Obs where
  | status (s : ConnectionStatus)
  | activity (a : Act)
  | sinkError
  | reconnectScheduled
  | disconnectCall
deriving DecidableEq, Repr

/-- The mutable fields of DirectLineStreaming that the modelled entry points
touch: the current value of the connectionStatus$ BehaviorSubject, the
queueActivities flag, the activityQueue of the stream handler, the retryCount
(an Int, since the JavaScript decrement can cross zero), and whether the
token is non-null. -/
structure DLState where
  status : ConnectionStatus
  queueActivities : Bool
  activityQueue : List Act
  retryCount : Int
  tokenPresent : Bool
deriving DecidableEq, Repr

/-- The state set up by the constructor (lines 97, 109, 121): status
Uninitialized, queueActivities true, empty queue, retryCount =
MAX_RETRY_COUNT, token present. -/
def dlInit : DLState :=
  { status := .Uninitialized, queueActivities := true, activityQueue := []
    retryCount := (MAX_RETRY_COUNT : Int), tokenPresent := true }

/-- One event of the controller.  Faithful points: processRequest (recv) has
no Ended guard, it queues or publishes regardless of status;
disconnectionHandler (discon) checks Ended first (line 272), then the token
(line 276), then decrements retryCount and compares the decremented value
with 0 (lines 281 to 282); the flush publishes the queued activities in FIFO
order and clears the queue (lines 84 to 86), and the retry counter is reset
only in the same success block (line 334); end publishes Ended and calls
disconnect unconditionally (lines 136 to 137). -/
def step (s : DLState) : Ev → DLState × List Obs
  | .connectStart => ({ s with queueActivities := true }, [])
  | .onlinePub => ({ s with status := .Online }, [.status .Online])
  | .flushDone =>
    ({ s with activityQueue := [], queueActivities := false
              retryCount := (MAX_RETRY_COUNT : Int) },
     s.activityQueue.map .activity)
  | .connectFail => (s, [.disconnectCall])
  | .recv a =>
    if s.queueActivities then
      ({ s with activityQueue := s.activityQueue ++ [a] }, [])
    else
      (s, [.activity a])
  | .discon =>
    if s.status = .Ended then (s, [])
    else if s.tokenPresent = false then (s, [.sinkError])
    else if 0 < s.retryCount - 1 then
      ({ s with retryCount := s.retryCount - 1, status := .Connecting },
       [.status .Connecting, .reconnectScheduled])
    else
      ({ s with retryCount := s.retryCount - 1 }, [.sinkError])
  | .endCall => ({ s with status := .Ended }, [.status .Ended, .disconnectCall])

/-- Run a sequence of events, accumulating observations in order. -/
def run (s : DLState) : List Ev → DLState × List Obs
  | [] => (s, [])
  | e :: es =>
    let p := step s e
    let q := run p.1 es
    (q.1, p.2 ++ q.2)

/-- An outbound attachment of a message activity: contentType and the HTTP
contentUrl the sender dereferences. -/
structure OutAttachment where
  contentType : String
  contentUrl : String
deriving DecidableEq, Repr

/-- An outbound message for postMessageWithAttachments.  The destructuring on
source line 229 splits the activity into attachments and the rest; core is
the JSON serialization of that rest (messageWithoutAttachments), fromId its
from.id field. -/
structure OutMessage where
  core : String
  fromId : String
  attachments : List OutAttachment
deriving DecidableEq, Repr

/-- One HttpContent stream framed into the upload request: its declared
content type and its byte content. -/
structure HttpContentM where
  contentType : String
  content : String
deriving DecidableEq, Repr

/-- The HttpContent built for one fetched attachment (lines 240 to 245): the
content type of the source attachment and the bytes the GET on its contentUrl
returned.  The fetch function abstracts the HTTP client. -/
def fetchedContent (fetch : String → String) (a : OutAttachment) : HttpContentM :=
  { contentType := a.contentType, content := fetch a.contentUrl }

/-- The first stream of the upload request (lines 251 to 253): the activity
without its attachments field, serialized as UTF-8 JSON, with content type
application/vnd.microsoft.activity. -/
def activityStream (m : OutMessage) : HttpContentM :=
  { contentType := "application/vnd.microsoft.activity", content := m.core }

/-- The ordered stream list of the upload request built by
postMessageWithAttachments (lines 232 to 255).  The fetch phase is
Observable.from(attachments).flatMap(ajax...): flatMap subscribes to every
inner ajax eagerly, and the do-callback pushes one HttpContent per response
when that response arrives, so httpContentList is ordered by response
arrival.  The arrival argument is that arrival order, a permutation of the
attachment indices; the count() barrier guarantees the list is complete
before the request is assembled.  Line 253 prepends the activity stream;
line 254 appends the fetched contents in list (arrival) order. -/
def uploadStreams (m : OutMessage) (fetch : String → String)
    (arrival : List Nat) : List HttpContentM :=
  activityStream m ::
    arrival.filterMap (fun i => (m.attachments.get? i).map (fetchedContent fetch))

/-- Events of one postMessageWithAttachments call: attachment fetch
completions and the sending of the assembled upload request. -/
inductive UploadEv where
  | fetched (url : String)
  | sent (streams : List HttpContentM)
deriving DecidableEq, Repr

/-- The event trace of one postMessageWithAttachments call: the fetches
complete (in arrival order) and only then, behind the count() barrier (line
247), is the upload request sent (lines 248 to 255). -/
def uploadTrace (m : OutMessage) (fetch : String → String)
    (arrival : List Nat) : List UploadEv :=
  arrival.filterMap (fun i => (m.attachments.get? i).map (fun a => UploadEv.fetched a.contentUrl))
    ++ [UploadEv.sent (uploadStreams m fetch arrival)]

/-- Outcome of handling the upload response (lines 257 to 266): whether an
error was signalled on the per-call result channel and which id, if any, was
published. -/
structure UploadOutcome where
  errored : Bool
  publishedId : Option String
deriving DecidableEq, Repr

/-- The response handling of postMessageWithAttachments (lines 257 to 266).
The response streams field is an Option: none models a falsy (undefined)
field.  The JavaScript condition (resp.streams && resp.streams.length !== 1)
is true exactly when the field is present with length other than one (an
empty array is truthy), and then an Invalid stream count error is signalled.
In the else branch the code reads resp.streams[0]: when the field is absent
this throws a TypeError (undefinedIndex); with exactly one stream its JSON Id
is published.  A stream is modelled by the id string its JSON carries. -/
def handleUploadResponse (streams : Option (List String)) :
    Except JsError UploadOutcome :=
  match streams with
  | none => .error .undefinedIndex
  | some ss =>
    if ss.length ≠ 1 then .ok { errored := true, publishedId := none }
    else .ok { errored := false, publishedId := ss.head? }

/-- A concrete outbound message with two attachments, used to exercise
postMessageWithAttachments. -/
def cexMsg : OutMessage :=
  { core := "activity-json", fromId := "user1"
    attachments := [{ contentType := "image/jpeg", contentUrl := "http://x/1" },
                    { contentType := "text/csv", contentUrl := "http://x/2" }] }

/-- A concrete fetch function standing for the HTTP client during the
attachment fetch phase. -/
def cexFetch : String → String := fun url => url ++ "-bytes"

/-- Claim C3, counterexample: the claim quantifies over every inbound request
with exactly one activity and at least one extra stream, but an activity
whose JSON has no attachments field (attachments = none) makes line 62 spread
undefined, which throws; nothing is appended and no response is produced. -/
theorem c3_missing_attachments_counterexample :
    (⟨[⟨"m2", none⟩]⟩ : ActivitySet).activities.length = 1
    ∧ ¬ ∃ res, processRequest false ⟨[⟨"m2", none⟩]⟩
        [⟨"image/png", "AAA"⟩] = .ok res := by
  refine ⟨rfl, ?_⟩
  rintro ⟨res, h⟩
  simp [processRequest] at h

/-- Claim C3 (amended): for every inbound request whose activity set has
exactly one activity carrying an attachments array and n at least 1
additional streams, the handler appends one entry per extra stream, in stream
order and preserving the pre-existing attachments, each of the form
contentType = stream.contentType and contentUrl = the data URI prefix
followed by the base64 payload, and delivers or queues the result with
response 200. -/
theorem c3_attachment_materialization (sq : Bool) (core : String)
    (pre : List Attachment) (streams : List ContentStream) (h : streams ≠ []) :
    processRequest sq ⟨[⟨core, some pre⟩]⟩ streams =
      .ok { sink := [if sq then
                       .queued ⟨core, some (pre ++ streams.map materializeAttachment)⟩
                     else
                       .next ⟨core, some (pre ++ streams.map materializeAttachment)⟩]
            statusCode := 200 } := by
  simp [processRequest, h]

/-- Claim C3, witness: an activity arriving with an empty attachments array
and two streams typed image/png and application/pdf ends with exactly those
two attachments, in that order, each contentUrl beginning with the base64
data URI prefix. -/
theorem c3_attachment_materialization_witness :
    ([({ contentType := "image/png", content := "AAA" } : ContentStream),
      { contentType := "application/pdf", content := "BBB" }] ≠ ([] : List ContentStream))
    ∧ processRequest false ⟨[⟨"m1", some []⟩]⟩
        [⟨"image/png", "AAA"⟩, ⟨"application/pdf", "BBB"⟩] =
      .ok { sink := [.next ⟨"m1", some [⟨"image/png", "data:text/plain;base64,AAA"⟩,
                                        ⟨"application/pdf", "data:text/plain;base64,BBB"⟩]⟩]
            statusCode := 200 } :=
  ⟨by decide, by
    have h := c3_attachment_materialization false "m1" []
      [⟨"image/png", "AAA"⟩, ⟨"application/pdf", "BBB"⟩] (by decide)
    simpa [materializeAttachment] using h⟩

/-- Claim C4, counterexample: a request whose activity set has exactly one
activity is claimed to always get response 200, but when the activity has no
attachments field and an extra stream is present, line 62 spreads undefined
and the handler throws instead of responding. -/
theorem c4_crash_counterexample :
    (⟨[⟨"m3", none⟩]⟩ : ActivitySet).activities.length = 1
    ∧ ¬ ∃ res, processRequest true ⟨[⟨"m3", none⟩]⟩
        [⟨"application/pdf", "QQ"⟩] = .ok res := by
  refine ⟨rfl, ?_⟩
  rintro ⟨res, h⟩
  simp [processRequest] at h

/-- Claim C4 (amended): an activity set whose activities list has length
other than one signals an error on the sink and responds 500; with exactly
one activity the handler delivers or queues it and responds 200, provided the
request has no extra streams or the activity carries an attachments array
(otherwise the handler throws before responding). -/
theorem c4_activity_count_routing (sq : Bool) (set : ActivitySet)
    (streams : List ContentStream) :
    (set.activities.length ≠ 1 →
      processRequest sq set streams = .ok { sink := [.errored], statusCode := 500 })
    ∧ (∀ a, set.activities = [a] → (streams = [] ∨ a.attachments ≠ none) →
        ∃ d, processRequest sq set streams =
          .ok { sink := [if sq then .queued d else .next d], statusCode := 200 }) := by
  obtain ⟨acts⟩ := set
  constructor
  · intro h
    match acts with
    | [] => simp [processRequest]
    | [a] => simp at h
    | a :: b :: t => simp [processRequest]
  · intro a ha hrest
    simp only at ha
    subst ha
    rcases hrest with h0 | hatt
    · subst h0
      exact ⟨a, by simp [processRequest]⟩
    · match hA : a.attachments with
      | none => exact absurd hA hatt
      | some atts =>
        by_cases h0 : streams = []
        · subst h0
          exact ⟨a, by simp [processRequest]⟩
        · refine ⟨{ a with attachments := some (atts ++ streams.map materializeAttachment) }, ?_⟩
          simp [processRequest, h0, hA]

/-- Claim C4, witness: a set with two activities yields a sink error and
response 500. -/
theorem c4_activity_count_routing_witness :
    ((⟨[⟨"x", none⟩, ⟨"y", none⟩]⟩ : ActivitySet).activities.length ≠ 1)
    ∧ processRequest true ⟨[⟨"x", none⟩, ⟨"y", none⟩]⟩ [] =
        .ok { sink := [.errored], statusCode := 500 } :=
  ⟨by decide,
   (c4_activity_count_routing true ⟨[⟨"x", none⟩, ⟨"y", none⟩]⟩ []).1 (by decide)⟩

/-- Claim C5: on a refresh error with status 403 or 404 the refresher
disconnects the transport and schedules nothing further; on any other error
it immediately retries with budget minus one while the budget is positive,
and with the budget exhausted it clears the token to null and disconnects. -/
theorem c5_refresh_error_handling (rc : Nat) (st : Nat)
    (status : ConnectionStatus) (hs : status ≠ .Ended) :
    ((st = 403 ∨ st = 404) → refreshToken false rc status (.error st) =
        { scheduled := none, immediateRetry := none
          tokenAction := .keep, disconnects := true })
    ∧ (¬(st = 403 ∨ st = 404) → 0 < rc → refreshToken false rc status (.error st) =
        { scheduled := none, immediateRetry := some (false, rc - 1)
          tokenAction := .keep, disconnects := false })
    ∧ (¬(st = 403 ∨ st = 404) → rc = 0 → refreshToken false rc status (.error st) =
        { scheduled := none, immediateRetry := none
          tokenAction := .clearNull, disconnects := true }) := by
  refine ⟨?_, ?_, ?_⟩
  · intro h
    simp [refreshToken, hs, h]
  · intro h hrc
    simp [refreshToken, hs, h, hrc]
  · intro h hrc
    subst hrc
    simp [refreshToken, hs, h]

/-- Claim C5, witness: a 403 refresh error while Online disconnects and
schedules no retry and no further tick. -/
theorem c5_refresh_error_handling_witness :
    (ConnectionStatus.Online ≠ ConnectionStatus.Ended)
    ∧ ((403 : Nat) = 403 ∨ (403 : Nat) = 404)
    ∧ refreshToken false 2 .Online (.error 403) =
        { scheduled := none, immediateRetry := none
          tokenAction := .keep, disconnects := true } :=
  ⟨by decide, Or.inl rfl,
   (c5_refresh_error_handling 2 403 .Online (by decide)).1 (Or.inl rfl)⟩

/-- Claim C10: the constructor invocation (firstCall = true) only schedules a
tick with retry budget 0, so a single non-fatal error on that first tick
immediately clears the token and disconnects without any retry; only ticks
scheduled by a successful refresh carry the MAX_RETRY_COUNT budget. -/
theorem c10_first_tick_zero_budget (rc : Nat) (status : ConnectionStatus)
    (ajax : Except Nat String) (st : Nat) (tok : String) :
    refreshToken true rc status ajax =
      { scheduled := some (false, 0), immediateRetry := none
        tokenAction := .keep, disconnects := false }
    ∧ (st ≠ 403 → st ≠ 404 → refreshToken false 0 .Online (.error st) =
        { scheduled := none, immediateRetry := none
          tokenAction := .clearNull, disconnects := true })
    ∧ (refreshToken false rc .Online (.ok tok)).scheduled =
        some (false, MAX_RETRY_COUNT) := by
  refine ⟨rfl, ?_, rfl⟩
  intro h1 h2
  simp [refreshToken, h1, h2]

/-- Claim C10, witness: a 500 refresh error on the zero-budget first tick
clears the token and disconnects with no retry. -/
theorem c10_first_tick_zero_budget_witness :
    ((500 : Nat) ≠ 403) ∧ ((500 : Nat) ≠ 404)
    ∧ refreshToken false 0 .Online (.error 500) =
        { scheduled := none, immediateRetry := none
          tokenAction := .clearNull, disconnects := true } :=
  ⟨by decide, by decide,
   (c10_first_tick_zero_budget 0 .Online (.error 500) 500 "t").2.1
     (by decide) (by decide)⟩

/-- Running a concatenation of event lists runs them in sequence and
concatenates the observations. -/
theorem run_append (s : DLState) (l1 l2 : List Ev) :
    run s (l1 ++ l2) =
      ((run (run s l1).1 l2).1, (run s l1).2 ++ (run (run s l1).1 l2).2) := by
  induction l1 generalizing s with
  | nil => simp [run]
  | cons e es ih =>
    simp [run, ih (step s e).1]

/-- While queueActivities is true, received activities are appended to the
queue in arrival order and nothing is published. -/
theorem run_recv_queueing (s : DLState) (pre : List Act)
    (hq : s.queueActivities = true) :
    run s (pre.map Ev.recv) =
      ({ s with activityQueue := s.activityQueue ++ pre }, []) := by
  induction pre generalizing s with
  | nil => simp [run]
  | cons a t ih =>
    obtain ⟨st, qa, q, rc, tk⟩ := s
    simp only at hq
    subst hq
    simp only [List.map_cons, run, step, if_true]
    rw [ih ⟨st, true, q ++ [a], rc, tk⟩ rfl]
    simp

/-- While queueActivities is false, received activities are published
immediately, in order, and the state does not change. -/
theorem run_recv_delivering (s : DLState) (post : List Act)
    (hq : s.queueActivities = false) :
    run s (post.map Ev.recv) = (s, post.map Obs.activity) := by
  induction post generalizing s with
  | nil => simp [run]
  | cons a t ih =>
    obtain ⟨st, qa, q, rc, tk⟩ := s
    simp only at hq
    subst hq
    simp only [List.map_cons, run, step]
    rw [if_neg (by simp)]
    rw [ih ⟨st, false, q, rc, tk⟩ rfl]
    simp

/-- A full gated startup from any state: connect (gating on), queued
arrivals, Online publication, more queued arrivals, flush, post-flush
arrivals.  The observations are the Online status first, then the queue in
FIFO order, then the post-flush arrivals; the queue ends empty with gating
off and the retry counter reset. -/
theorem run_gated (s : DLState) (pre mid post : List Act) :
    run s (Ev.connectStart :: (pre.map Ev.recv ++ (Ev.onlinePub ::
        (mid.map Ev.recv ++ (Ev.flushDone :: post.map Ev.recv))))) =
      ({ s with status := .Online, queueActivities := false, activityQueue := []
                retryCount := (MAX_RETRY_COUNT : Int) },
       Obs.status .Online :: ((s.activityQueue ++ (pre ++ mid)).map Obs.activity
         ++ post.map Obs.activity)) := by
  obtain ⟨st, qa, q, rc, tk⟩ := s
  simp only [run, step]
  rw [run_append, run_recv_queueing _ pre rfl]
  simp only [run, step]
  rw [run_append, run_recv_queueing _ mid rfl]
  simp only [run, step]
  rw [run_recv_delivering _ post rfl]
  simp [List.append_assoc]

/-- Claim C1: every inbound activity that arrives while queueActivities is
true is appended to the startup queue rather than published; on the
transition to Online the queue is flushed to the sink in FIFO arrival order,
each queued activity is delivered exactly once, the queue is cleared by the
flush, and every queued activity is observed strictly after the Online status
and strictly before any activity received after the flush.  Arrivals between
the Online publication and the flush (the waitUntilOnline suspension point)
are covered by the mid segment. -/
theorem c1_startup_queue_flush (pre mid post : List Act) :
    run dlInit ([Ev.connectStart] ++ pre.map Ev.recv ++ [Ev.onlinePub]
        ++ mid.map Ev.recv ++ [Ev.flushDone] ++ post.map Ev.recv) =
      ({ dlInit with status := .Online, queueActivities := false },
       Obs.status .Online :: ((pre ++ mid).map Obs.activity
         ++ post.map Obs.activity)) := by
  have h := run_gated dlInit pre mid post
  simpa [dlInit, List.append_assoc] using h

/-- One step other than flushDone never increases the retry potential: the
number of reconnects it schedules plus the remaining non-negative budget is
bounded by the budget before the step. -/
theorem step_retry_bound (s : DLState) (e : Ev) (hne : e ≠ Ev.flushDone) :
    (step s e).2.count Obs.reconnectScheduled + (step s e).1.retryCount.toNat ≤
      s.retryCount.toNat := by
  obtain ⟨st, qa, q, rc, tk⟩ := s
  cases e with
  | connectStart => simp [step]
  | onlinePub => simp [step]
  | flushDone => exact absurd rfl hne
  | connectFail => simp [step]
  | recv a =>
    simp only [step]
    by_cases hq : qa = true
    · subst hq; simp
    · simp at hq; subst hq; simp
  | discon =>
    simp only [step]
    by_cases h1 : st = .Ended
    · simp [h1]
    · rw [if_neg h1]
      by_cases h2 : tk = false
      · subst h2; simp
      · simp only at h2
        rw [if_neg h2]
        by_cases h3 : (0 : Int) < rc - 1
        · rw [if_pos h3]
          show ([Obs.status .Connecting, Obs.reconnectScheduled] : List Obs).count
              Obs.reconnectScheduled + (rc - 1).toNat ≤ rc.toNat
          have hc : ([Obs.status .Connecting, Obs.reconnectScheduled] : List Obs).count
              Obs.reconnectScheduled = 1 := by decide
          rw [hc]
          omega
        · rw [if_neg h3]
          show ([Obs.sinkError] : List Obs).count Obs.reconnectScheduled
              + (rc - 1).toNat ≤ rc.toNat
          have hc : ([Obs.sinkError] : List Obs).count Obs.reconnectScheduled = 0 := by
            decide
          rw [hc]
          omega
  | endCall => simp [step]

/-- Over any event sequence that contains no flushDone (no successful
handshake), the number of scheduled reconnects plus the remaining
non-negative budget never exceeds the starting budget. -/
theorem run_retry_bound (s : DLState) (evs : List Ev)
    (hno : Ev.flushDone ∉ evs) :
    (run s evs).2.count Obs.reconnectScheduled + (run s evs).1.retryCount.toNat ≤
      s.retryCount.toNat := by
  induction evs generalizing s with
  | nil => simp [run]
  | cons e es ih =>
    have hne : e ≠ Ev.flushDone := fun h => hno (h ▸ List.mem_cons_self e es)
    have hno2 : Ev.flushDone ∉ es := fun h => hno (List.mem_cons_of_mem e h)
    simp only [run, List.count_append]
    have h1 := step_retry_bound s e hne
    have h2 := ih (step s e).1 hno2
    omega

/-- Claim C2: the retry counter starts at MAX_RETRY_COUNT = 3 and is reset to
3 by the successful-handshake block; between successful handshakes the
controller schedules at most MAX_RETRY_COUNT reconnect attempts; and from a
full budget, MAX_RETRY_COUNT consecutive disconnection callbacks produce the
terminal error on the activity sink. -/
theorem c2_retry_budget :
    dlInit.retryCount = (MAX_RETRY_COUNT : Int)
    ∧ (∀ s : DLState, ((step s .flushDone).1).retryCount = (MAX_RETRY_COUNT : Int))
    ∧ (∀ (s : DLState) (evs : List Ev), s.retryCount ≤ (MAX_RETRY_COUNT : Int) →
        Ev.flushDone ∉ evs →
        (run s evs).2.count Obs.reconnectScheduled ≤ MAX_RETRY_COUNT)
    ∧ (∀ s : DLState, s.status ≠ .Ended → s.tokenPresent = true →
        s.retryCount ≤ (MAX_RETRY_COUNT : Int) →
        Obs.sinkError ∈ (run s (List.replicate MAX_RETRY_COUNT Ev.discon)).2) := by
  refine ⟨rfl, fun s => rfl, ?_, ?_⟩
  · intro s evs hrc hno
    have h := run_retry_bound s evs hno
    have h2 : s.retryCount.toNat ≤ MAX_RETRY_COUNT := by
      simp only [MAX_RETRY_COUNT] at hrc ⊢
      omega
    omega
  · intro s hst htk hrc
    obtain ⟨st, qa, q, rc, tk⟩ := s
    simp only at htk hrc
    subst htk
    simp only at hst
    simp only [MAX_RETRY_COUNT, List.replicate, Nat.reduceSub] at hrc ⊢
    by_cases h1 : (0 : Int) < rc - 1
    · by_cases h2 : (0 : Int) < rc - 1 - 1
      · have h3 : ¬ (0 : Int) < rc - 1 - 1 - 1 := by omega
        simp [run, step, hst, h1, h2, h3]
      · simp [run, step, hst, h1, h2]
    · simp [run, step, hst, h1]

/-- Claim C2, witness: from a freshly Online state with full budget, two
failed reconnect cycles and a third disconnection stay within the
MAX_RETRY_COUNT bound of scheduled reconnects. -/
theorem c2_retry_budget_witness :
    (({ status := .Online, queueActivities := false, activityQueue := []
        retryCount := 3, tokenPresent := true } : DLState).retryCount ≤
          (MAX_RETRY_COUNT : Int))
    ∧ Ev.flushDone ∉ [Ev.discon, Ev.connectStart, Ev.connectFail,
        Ev.discon, Ev.connectStart, Ev.connectFail, Ev.discon]
    ∧ (run { status := .Online, queueActivities := false, activityQueue := []
             retryCount := 3, tokenPresent := true }
         [Ev.discon, Ev.connectStart, Ev.connectFail,
          Ev.discon, Ev.connectStart, Ev.connectFail,
          Ev.discon]).2.count Obs.reconnectScheduled ≤ MAX_RETRY_COUNT :=
  ⟨by decide, by decide,
   c2_retry_budget.2.2.1
     { status := .Online, queueActivities := false, activityQueue := []
       retryCount := 3, tokenPresent := true }
     [Ev.discon, Ev.connectStart, Ev.connectFail,
      Ev.discon, Ev.connectStart, Ev.connectFail, Ev.discon]
     (by decide) (by decide)⟩

/-- After the status has become Ended, any sequence of disconnection and
inbound events produces only activity observations: no status updates, no
reconnect scheduling, no sink errors, no disconnect calls. -/
theorem run_after_ended (s : DLState) (evs : List Ev) (hst : s.status = .Ended)
    (h : ∀ e ∈ evs, e = Ev.discon ∨ ∃ b, e = Ev.recv b) :
    ∀ o ∈ (run s evs).2, ∃ b, o = Obs.activity b := by
  induction evs generalizing s with
  | nil => simp [run]
  | cons e es ih =>
    have htail : ∀ e2 ∈ es, e2 = Ev.discon ∨ ∃ b, e2 = Ev.recv b :=
      fun e2 he2 => h e2 (List.mem_cons_of_mem e he2)
    obtain he | ⟨b, he⟩ := h e (List.mem_cons_self e es) <;> subst he
    · simp only [run]
      rw [show step s Ev.discon = (s, []) from by simp [step, hst]]
      simpa using ih s hst htail
    · simp only [run, step]
      by_cases hq : s.queueActivities = true

      · rw [if_pos hq]
        simpa using ih { s with activityQueue := s.activityQueue ++ [b] } hst htail
      · rw [if_neg hq]
        intro o ho
        simp only [List.mem_append, List.mem_singleton] at ho
        obtain ho | ho := ho
        · exact ⟨b, by simpa using ho⟩
        · exact ih s hst htail o ho

/-- Claim C8, counterexample: after a successful startup and end(), an
inbound activity is not a no-op: the handler has no Ended guard, so the
consumer receives activity 7 after the Ended status was published. -/
theorem c8_inbound_after_end_counterexample :
    (run dlInit [Ev.connectStart, Ev.onlinePub, Ev.flushDone, Ev.endCall,
        Ev.recv 7]).2 =
      [Obs.status .Online, Obs.status .Ended, Obs.disconnectCall,
       Obs.activity 7] := by decide

/-- Claim C8 (amended): end() publishes Ended and calls disconnect exactly
once; subsequent disconnection events are no-ops, and subsequent
disconnection or inbound events publish no status, schedule no reconnect,
signal no sink error and call disconnect no further time; inbound events,
however, are not no-ops: the handler has no Ended guard and still queues or
delivers activities. -/
theorem c8_end_semantics (s : DLState) (a : Act) (evs : List Ev) :
    step s .endCall = ({ s with status := .Ended },
      [Obs.status .Ended, Obs.disconnectCall])
    ∧ (s.status = .Ended → step s .discon = (s, []))
    ∧ (s.status = .Ended → s.queueActivities = false →
        step s (.recv a) = (s, [Obs.activity a]))
    ∧ (s.status = .Ended → (∀ e ∈ evs, e = Ev.discon ∨ ∃ b, e = Ev.recv b) →
        (run s evs).2.count Obs.disconnectCall = 0
        ∧ ∀ c : ConnectionStatus, Obs.status c ∉ (run s evs).2) := by
  refine ⟨rfl, ?_, ?_, ?_⟩
  · intro hst
    simp [step, hst]
  · intro hst hq
    simp [step, hq]
  · intro hst h
    have hall := run_after_ended s evs hst h
    constructor
    · rw [List.count_eq_zero]
      intro hmem
      obtain ⟨b, hb⟩ := hall _ hmem
      exact absurd hb (by simp)
    · intro c hmem
      obtain ⟨b, hb⟩ := hall _ hmem
      exact absurd hb (by simp)

/-- Claim C8, witness: in an Ended state with gating off, a disconnection
event is a no-op while an inbound event still delivers its activity. -/
theorem c8_end_semantics_witness :
    (({ status := .Ended, queueActivities := false, activityQueue := []
        retryCount := 3, tokenPresent := true } : DLState).status = .Ended)
    ∧ step { status := .Ended, queueActivities := false, activityQueue := []
             retryCount := 3, tokenPresent := true } .discon =
        ({ status := .Ended, queueActivities := false, activityQueue := []
           retryCount := 3, tokenPresent := true }, [])
    ∧ step { status := .Ended, queueActivities := false, activityQueue := []
             retryCount := 3, tokenPresent := true } (.recv 5) =
        ({ status := .Ended, queueActivities := false, activityQueue := []
           retryCount := 3, tokenPresent := true }, [Obs.activity 5]) :=
  ⟨rfl,
   (c8_end_semantics
     { status := .Ended, queueActivities := false, activityQueue := []
       retryCount := 3, tokenPresent := true } 5 []).2.1 rfl,
   (c8_end_semantics
     { status := .Ended, queueActivities := false, activityQueue := []
       retryCount := 3, tokenPresent := true } 5 []).2.2.1 rfl rfl⟩

/-- Claim C9, counterexample: on the initial successful connection the
published statuses are exactly one Online; no Connecting status precedes it
(connectionStatus$ only replays the Uninitialized initial value), refuting
that a Connecting status is published before each Online. -/
theorem c9_no_connecting_on_initial_connect :
    (run dlInit [Ev.connectStart, Ev.onlinePub, Ev.flushDone]).2 =
      [Obs.status .Online]
    ∧ Obs.status .Connecting ∉
        (run dlInit [Ev.connectStart, Ev.onlinePub, Ev.flushDone]).2 := by
  decide

/-- Claim C9 (amended): the initial connection publishes Online directly
after the Uninitialized initial value, with no Connecting; on reconnect
cycles the disconnection handler publishes Connecting, and it is the only
source of Connecting, before the next Online, which only the handshake
success block publishes; Ended is published only by end(). -/
theorem c9_status_transitions (s : DLState) :
    ((run dlInit [Ev.connectStart, Ev.onlinePub, Ev.flushDone]).2 =
      [Obs.status .Online])
    ∧ (s.status = .Online → s.tokenPresent = true → 1 < s.retryCount →
        s.activityQueue = [] →
        (run s [Ev.discon, Ev.connectStart, Ev.onlinePub, Ev.flushDone]).2 =
          [Obs.status .Connecting, Obs.reconnectScheduled, Obs.status .Online])
    ∧ (∀ (t : DLState) (e : Ev),
        Obs.status .Connecting ∈ (step t e).2 → e = Ev.discon)
    ∧ (∀ (t : DLState) (e : Ev),
        Obs.status .Online ∈ (step t e).2 → e = Ev.onlinePub)
    ∧ (∀ (t : DLState) (e : Ev),
        Obs.status .Ended ∈ (step t e).2 → e = Ev.endCall) := by
  refine ⟨by decide, ?_, ?_, ?_, ?_⟩
  · obtain ⟨st, qa, q, rc, tk⟩ := s
    intro hst htk hrc hq
    simp only at hst htk hrc hq
    subst hst
    subst htk
    subst hq
    have h1 : (0 : Int) < rc - 1 := by omega
    simp [run, step, h1]
  · intro t e h
    obtain ⟨st, qa, q, rc, tk⟩ := t
    cases e with
    | discon => rfl
    | recv a =>
      simp only [step] at h
      by_cases hq : qa = true
      · rw [if_pos (by simp [hq])] at h
        simp at h
      · rw [if_neg (by simp at hq ⊢; simp [hq])] at h
        simp at h
    | connectStart => simp [step] at h
    | onlinePub => simp [step] at h
    | flushDone =>
      simp only [step] at h
      simp only [List.mem_map] at h
      obtain ⟨b, _, hb⟩ := h
      exact absurd hb (by simp)
    | connectFail => simp [step] at h
    | endCall => simp [step] at h
  · intro t e h
    obtain ⟨st, qa, q, rc, tk⟩ := t
    cases e with
    | onlinePub => rfl
    | recv a =>
      simp only [step] at h
      by_cases hq : qa = true
      · rw [if_pos (by simp [hq])] at h
        simp at h
      · rw [if_neg (by simp at hq ⊢; simp [hq])] at h
        simp at h
    | discon =>
      simp only [step] at h
      by_cases h1 : st = .Ended
      · rw [if_pos h1] at h
        simp at h
      · rw [if_neg h1] at h
        by_cases h2 : tk = false
        · rw [if_pos (by simp [h2])] at h
          simp at h
        · rw [if_neg (by simp at h2 ⊢; simp [h2])] at h
          by_cases h3 : (0 : Int) < rc - 1
          · rw [if_pos h3] at h
            simp at h
          · rw [if_neg h3] at h
            simp at h
    | connectStart => simp [step] at h
    | flushDone =>
      simp only [step] at h
      simp only [List.mem_map] at h
      obtain ⟨b, _, hb⟩ := h
      exact absurd hb (by simp)
    | connectFail => simp [step] at h
    | endCall => simp [step] at h
  · intro t e h
    obtain ⟨st, qa, q, rc, tk⟩ := t
    cases e with
    | endCall => rfl
    | recv a =>
      simp only [step] at h
      by_cases hq : qa = true
      · rw [if_pos (by simp [hq])] at h
        simp at h
      · rw [if_neg (by simp at hq ⊢; simp [hq])] at h
        simp at h
    | discon =>
      simp only [step] at h
      by_cases h1 : st = .Ended
      · rw [if_pos h1] at h
        simp at h
      · rw [if_neg h1] at h
        by_cases h2 : tk = false
        · rw [if_pos (by simp [h2])] at h
          simp at h
        · rw [if_neg (by simp at h2 ⊢; simp [h2])] at h
          by_cases h3 : (0 : Int) < rc - 1
          · rw [if_pos h3] at h
            simp at h
          · rw [if_neg h3] at h
            simp at h
    | connectStart => simp [step] at h
    | onlinePub => simp [step] at h
    | flushDone =>
      simp only [step] at h
      simp only [List.mem_map] at h
      obtain ⟨b, _, hb⟩ := h
      exact absurd hb (by simp)
    | connectFail => simp [step] at h

/-- Claim C9, witness: from an Online state with budget 3, a disconnection
followed by a successful handshake publishes Connecting and then Online, in
that order. -/
theorem c9_status_transitions_witness :
    (({ status := .Online, queueActivities := false, activityQueue := []
        retryCount := 3, tokenPresent := true } : DLState).status = .Online)
    ∧ ((1 : Int) < 3)
    ∧ (run { status := .Online, queueActivities := false, activityQueue := []
             retryCount := 3, tokenPresent := true }
         [Ev.discon, Ev.connectStart, Ev.onlinePub, Ev.flushDone]).2 =
        [Obs.status .Connecting, Obs.reconnectScheduled, Obs.status .Online] :=
  ⟨rfl, by decide,
   (c9_status_transitions
     { status := .Online, queueActivities := false, activityQueue := []
       retryCount := 3, tokenPresent := true }).2.1 rfl rfl (by decide) rfl⟩

/-- Reading every index of a list through the range of its length is the same
as mapping over the list. -/
theorem filterMap_get_range {α β : Type} (l : List α) (g : α → β) :
    (List.range l.length).filterMap (fun i => (l.get? i).map g) = l.map g := by
  induction l with
  | nil => simp
  | cons a t ih =>
    rw [List.length_cons, List.range_succ_eq_map, List.filterMap_cons, List.filterMap_map]
    have hf : ((fun i => ((a :: t).get? i).map g) ∘ Nat.succ) =
        fun i => (t.get? i).map g := by
      funext i
      simp
    rw [hf, ih]
    simp

/-- Claim C6, counterexample: the fetch phase uses flatMap, so the
HttpContent list is ordered by response arrival; when the second GET
completes before the first, the upload frames the attachment streams in an
order different from the source attachments array. -/
theorem c6_arrival_order_counterexample :
    ([1, 0].Perm (List.range cexMsg.attachments.length))
    ∧ uploadStreams cexMsg cexFetch [1, 0] ≠
        activityStream cexMsg ::
          cexMsg.attachments.map (fetchedContent cexFetch) := by
  decide

/-- Claim C6 (amended): within one postMessageWithAttachments call every
attachment is fetched before the upload request is sent; the first stream is
the activity serialized without its attachments field, with content type
application/vnd.microsoft.activity; the subsequent streams are exactly the
fetched attachments, but framed in response-arrival order, which is some
permutation of the source attachments order rather than necessarily that
order itself. -/
theorem c6_upload_assembly (m : OutMessage) (f : String → String)
    (arrival : List Nat) (h : arrival.Perm (List.range m.attachments.length)) :
    (uploadStreams m f arrival).head? = some (activityStream m)
    ∧ (uploadStreams m f arrival).tail.Perm
        (m.attachments.map (fetchedContent f))
    ∧ (uploadTrace m f arrival).getLast? =
        some (UploadEv.sent (uploadStreams m f arrival))
    ∧ ∀ a ∈ m.attachments,
        UploadEv.fetched a.contentUrl ∈ (uploadTrace m f arrival).dropLast := by
  refine ⟨rfl, ?_, ?_, ?_⟩
  · show (arrival.filterMap fun i =>
        (m.attachments.get? i).map (fetchedContent f)).Perm _
    have hp := h.filterMap (fun i => (m.attachments.get? i).map (fetchedContent f))
    rw [filterMap_get_range] at hp
    exact hp
  · show (arrival.filterMap _ ++ [UploadEv.sent (uploadStreams m f arrival)]).getLast? = _
    exact List.getLast?_concat _
  · intro a ha
    show UploadEv.fetched a.contentUrl ∈
      (arrival.filterMap (fun i => (m.attachments.get? i).map
          (fun a2 => UploadEv.fetched a2.contentUrl))
        ++ [UploadEv.sent (uploadStreams m f arrival)]).dropLast
    rw [List.dropLast_concat]
    have hp := h.filterMap (fun i => (m.attachments.get? i).map
      (fun a2 => UploadEv.fetched a2.contentUrl))
    rw [filterMap_get_range] at hp
    rw [hp.mem_iff]
    exact List.mem_map_of_mem _ ha

/-- Claim C6, witness: with responses arriving in source order, the upload
carries the activity stream first and the two fetched attachments. -/
theorem c6_upload_assembly_witness :
    ([0, 1].Perm (List.range cexMsg.attachments.length))
    ∧ ((uploadStreams cexMsg cexFetch [0, 1]).head? = some (activityStream cexMsg)
       ∧ (uploadStreams cexMsg cexFetch [0, 1]).tail.Perm
           (cexMsg.attachments.map (fetchedContent cexFetch))
       ∧ (uploadTrace cexMsg cexFetch [0, 1]).getLast? =
           some (UploadEv.sent (uploadStreams cexMsg cexFetch [0, 1]))
       ∧ ∀ a ∈ cexMsg.attachments,
           UploadEv.fetched a.contentUrl ∈
             (uploadTrace cexMsg cexFetch [0, 1]).dropLast) :=
  ⟨by decide, c6_upload_assembly cexMsg cexFetch [0, 1] (by decide)⟩

/-- Claim C7, counterexample: a response whose streams field is an empty
array is not tolerated silently: the guard is truthy for an empty array with
length 0, so an Invalid stream count error is signalled on the result
channel. -/
theorem c7_zero_streams_counterexample :
    handleUploadResponse (some []) = .ok { errored := true, publishedId := none }
    ∧ handleUploadResponse (some []) ≠
        .ok { errored := false, publishedId := none } := by
  refine ⟨rfl, ?_⟩
  intro h
  simp [handleUploadResponse] at h

/-- Claim C7 (amended): when the response streams field is present, exactly
one stream is required: a single stream has its Id published with no error,
while zero as well as two or more streams signal an error and publish no id;
only a response whose streams field is absent escapes the error signal, and
there reading the first stream throws, publishing neither id nor error. -/
theorem c7_upload_response_handling (ss : List String) (i : String) :
    handleUploadResponse (some [i]) =
      .ok { errored := false, publishedId := some i }
    ∧ (ss.length ≠ 1 → handleUploadResponse (some ss) =
        .ok { errored := true, publishedId := none })
    ∧ handleUploadResponse none = .error .undefinedIndex := by
  refine ⟨rfl, ?_, rfl⟩
  intro h
  simp [handleUploadResponse, h]

/-- Claim C7, witness: a two-stream response signals the error and publishes
no id. -/
theorem c7_upload_response_handling_witness :
    (["a", "b"].length ≠ 1)
    ∧ handleUploadResponse (some ["a", "b"]) =
        .ok { errored := true, publishedId := none } :=
  ⟨by decide, (c7_upload_response_handling ["a", "b"] "x").2.1 (by decide)⟩

end DLS
